import Mathlib

/-!

Verification of the DeepDrone Tello client (src/TelloAPI.py,
src/lib/TelloFramework.py) against its specification.

The Python code is shallowly embedded: each mutable object becomes an
immutable Lean structure and each method becomes a pure function from the
old state to the new state (plus its return value).  Datagrams are
modelled as `String`s (the code decodes every inbound datagram as UTF-8
text; the decode step is the identity in the model).  Locks are dropped:
the embedding makes every operation atomic, which is exactly what the
per-mailbox `threading.RLock` buys the Python code.  Python `float`
values produced by telemetry decoding are modelled as rationals (`ℚ`);
the decimal literals appearing in the datagrams considered here are exact
in both representations.  Code paths that raise a Python exception are
modelled with `Option`/`Except` (`none`/`.error` = the call raised).

The file has two parts: first all definitions (the embedding), then the
theorems about them.
-/

namespace DeepDrone

/-! ### Command-ack mailbox (`Command`, TelloAPI.py lines 21-38) -/

/-- Embedding of `Command`: the single-slot command-ack mailbox.
`response` is the pending reply, `none` when the slot is empty. -/
structure Command where
  response : Option String
  deriving DecidableEq, Repr

/-- A freshly constructed `Command()` mailbox: `self.response = None`. -/
def Command.init : Command := ⟨none⟩

/-- `Command.recv` (lines 27-29): store the UTF-8 decoded datagram,
unconditionally overwriting any pending value. -/
def Command.recv (_c : Command) (data : String) : Command :=
  { response := some data }

/-- `Command.pop` (lines 31-34): atomically return the pending value and
clear the slot (`response, self.response = self.response, None`). -/
def Command.pop (c : Command) : Option String × Command :=
  (c.response, { response := none })

/-- `Command.empty` (lines 36-38): `self.response is None`. -/
def Command.empty (c : Command) : Bool :=
  c.response.isNone

/-- A sequence of `recv` (store) calls applied in order. -/
def Command.recvAll (c : Command) (ds : List String) : Command :=
  ds.foldl Command.recv c

/-! ### Telemetry decoding (`State.recv`, TelloAPI.py line 49)

The decode expression is
`{item.split(':')[0]: float(item.split(':')[1])
  for item in data.decode('utf-8').split(';') if ':' in item}`.
-/

/-- A Python `dict` from attribute name to numeric value, as an ordered
association list (Python dicts preserve insertion order; re-assigning an
existing key keeps its original position). -/
abbrev Telemetry := List (String × ℚ)

/-- Assignment `d[k] = v` on a Python dict: overwrite in place when the
key is present, append otherwise. -/
def dictInsert (d : Telemetry) (k : String) (v : ℚ) : Telemetry :=
  match d with
  | [] => [(k, v)]
  | (k2, v2) :: rest =>
    if k2 = k then (k2, v) :: rest else (k2, v2) :: dictInsert rest k v

/-- Python `str.split(sep)` for a one-character separator, on the
character list of the string.  Always returns at least one group;
`"".split(sep) = ['']`. -/
def splitOnChar (sep : Char) : List Char → List (List Char)
  | [] => [[]]
  | c :: rest =>
    if c = sep then [] :: splitOnChar sep rest
    else
      match splitOnChar sep rest with
      | [] => [[c]]
      | g :: gs => (c :: g) :: gs

/-- Numeric value of a decimal digit character. -/
def digitVal (c : Char) : ℕ := c.toNat - 48

/-- The natural number denoted by a list of decimal digit characters. -/
def natOfDigits (cs : List Char) : ℕ :=
  cs.foldl (fun n c => 10 * n + digitVal c) 0

/-- Python `float(s)` on an unsigned literal: either all digits, or two
all-digit groups (at least one of them nonempty) around a single decimal
point.  `none` models a raised `ValueError`.  (The model covers plain
decimal literals, the only shape produced by Tello telemetry; exponent,
infinity/nan and surrounding-whitespace forms accepted by Python are out
of scope and never appear in any datagram considered in this file.) -/
def parseUnsignedFloat (cs : List Char) : Option ℚ :=
  match splitOnChar '.' cs with
  | [ip] =>
    if ip ≠ [] ∧ ip.all Char.isDigit then some ((natOfDigits ip : ℕ) : ℚ)
    else none
  | [ip, fp] =>
    if (ip ≠ [] ∨ fp ≠ []) ∧ ip.all Char.isDigit ∧ fp.all Char.isDigit then
      some ((natOfDigits ip : ℚ) + (natOfDigits fp : ℚ) / (10 : ℚ) ^ fp.length)
    else none
  | _ => none

/-- Python `float(s)`: an optional sign followed by an unsigned decimal
literal.  `none` models a raised `ValueError`. -/
def parseFloat (cs : List Char) : Option ℚ :=
  match cs with
  | [] => none
  | c :: rest =>
    if c = '-' then (parseUnsignedFloat rest).map (fun q => -q)
    else if c = '+' then parseUnsignedFloat rest
    else parseUnsignedFloat (c :: rest)

/-- One token of the dict comprehension in `State.recv` (line 49):
`some none` = the token has no `':'` and is skipped by the filter;
`some (some (k, v))` = key `item.split(':')[0]` with value
`float(item.split(':')[1])`; `none` = `float` raised, aborting the whole
comprehension. -/
def decodeToken (item : List Char) : Option (Option (String × ℚ)) :=
  if item.contains ':' then
    match parseFloat ((splitOnChar ':' item).getD 1 []) with
    | some v => some (some (String.mk ((splitOnChar ':' item).getD 0 []), v))
    | none => none
  else some none

/-- The dict comprehension of `State.recv`, run left to right over the
tokens, accumulating the dict built so far; `none` = the comprehension
raised. -/
def decodeTokens (d : Telemetry) : List (List Char) → Option Telemetry
  | [] => some d
  | item :: rest =>
    match decodeToken item with
    | none => none
    | some none => decodeTokens d rest
    | some (some (k, v)) => decodeTokens (dictInsert d k v) rest

/-- `State.recv` (line 49) on one inbound datagram: split the UTF-8 text
on `';'` and run the dict comprehension; `none` = the call raised. -/
def decodeTelemetry (data : String) : Option Telemetry :=
  decodeTokens [] (splitOnChar ';' data.toList)

/-! #### Spec-side decode definitions (for the refinement claims)

`specKeyField`/`specValueField`/`specTokens`/`decodeTelemetrySpec`
follow the spec's words with the value taken from the first two fields of
the colon split — the amended wording.  `afterFirstColon` is the value
part under the claim's literal wording "split on the first `':'`"
(everything after the first colon). -/

/-- Spec wording, key field: the text before the first `':'`. -/
def specKeyField (item : List Char) : String :=
  String.mk ((splitOnChar ':' item).getD 0 [])

/-- Amended spec wording, value field: the second field of the colon
split (the text between the first and second `':'`). -/
def specValueField (item : List Char) : List Char :=
  (splitOnChar ':' item).getD 1 []

/-- Claim wording, value part: everything after the first `':'`. -/
def afterFirstColon (item : List Char) : List Char :=
  List.intercalate [':'] ((splitOnChar ':' item).drop 1)

/-- Amended spec wording for the decode, token by token: keep only
tokens containing `':'`, pair the key field with the parsed value field,
fail when the value field does not parse as a float. -/
def specTokens : List (List Char) → Option (List (String × ℚ))
  | [] => some []
  | item :: rest =>
    if item.contains ':' then
      match parseFloat (specValueField item) with
      | some v => (specTokens rest).map (fun kvs => (specKeyField item, v) :: kvs)
      | none => none
    else specTokens rest

/-- Amended spec wording for the whole decode: split on `';'`, process
every token, then enter the kept pairs into a fresh dict in order. -/
def decodeTelemetrySpec (data : String) : Option Telemetry :=
  (specTokens (splitOnChar ';' data.toList)).map
    (fun kvs => kvs.foldl (fun d2 kv => dictInsert d2 kv.1 kv.2) [])

/-! ### Telemetry snapshot heap (`State`, TelloAPI.py lines 41-55)

`State.recv` builds a brand-new dict and rebinds `self.response` to it;
`State.pop` returns the currently bound dict object without copying.  To
state aliasing/immutability facts the model keeps an explicit heap of
every dict object ever allocated: `heap` lists the objects in allocation
order and `cur` is the index (reference) currently bound to
`self.response`.  Callers of `pop` receive the reference `cur`. -/

structure TelemetryHeap where
  heap : List Telemetry
  cur : ℕ
  deriving DecidableEq, Repr

/-- A freshly constructed `State()`: one allocated empty dict, bound. -/
def TelemetryHeap.init : TelemetryHeap := ⟨[[]], 0⟩

/-- `State.recv` on one datagram: allocate the brand-new dict produced by
the comprehension and rebind `self.response` to it; `none` = the decode
raised (and `self.response` was not rebound). -/
def TelemetryHeap.recvStep (h : TelemetryHeap) (data : String) : Option TelemetryHeap :=
  (decodeTelemetry data).map fun m => ⟨h.heap ++ [m], h.heap.length⟩

/-- `State.pop` (lines 51-52): return the currently bound dict object,
i.e. the reference to it. -/
def TelemetryHeap.pop (h : TelemetryHeap) : ℕ := h.cur

/-- Read the dict object a reference points to. -/
def TelemetryHeap.deref (h : TelemetryHeap) (r : ℕ) : Option Telemetry :=
  h.heap[r]?

/-- The value of the currently bound snapshot. -/
def TelemetryHeap.current (h : TelemetryHeap) : Telemetry :=
  (h.deref h.cur).getD []

/-- `Client._receive_thread` (lines 74-84) for the telemetry client, run
over the list of inbound datagrams: feed each one to `State.recv`; on the
first raised exception print it and `break` (the `Bool` is `true` when
the loop died early this way).  No exception propagates out. -/
def receiveLoop (h : TelemetryHeap) : List String → TelemetryHeap × Bool
  | [] => (h, false)
  | d :: ds =>
    match h.recvStep d with
    | some h2 => receiveLoop h2 ds
    | none => (h, true)

/-! ### Command send/wait (`Tello.send_command`, TelloAPI.py lines 149-173)

`send_command` transmits the command datagram to the device address and,
when `with_return` is true, busy-polls the command-ack mailbox
(`while self.response_client.empty(): if time.time() - st >= timeout:
raise`) until a reply appears or the timeout is exceeded.  The model
drives the loop with an explicit schedule: a list of poll events, one
per loop iteration. -/

/-- Apply the store (if any) the listener thread performed on the
mailbox since the previous poll iteration. -/
def applyStore (mb : Command) : Option String → Command
  | some data => mb.recv data
  | none => mb

/-- One poll iteration of the busy-wait loop, as seen by `send_command`:
the clock value `time.time()` returns in that iteration, paired with the
datagram (if any) the listener stored into the mailbox since the
previous iteration. -/
abbrev PollEvent := ℚ × Option String

/-- Outcome of one `send_command` call: `noReply` = `with_return` was
false and the call returned `None` immediately without polling the
mailbox; `replied r mb` = the wait loop found the mailbox non-empty and
returned `pop` (value `r`, mailbox left as `mb`); `timedOut t mb` =
`RuntimeError('No response to command')` raised at clock value `t` with
the mailbox left as `mb`; `stillPolling mb` = the modelled schedule ran
out while the real loop would still be busy-polling. -/
inductive SendResult where
  | noReply : SendResult
  | replied (r : Option String) (mb : Command) : SendResult
  | timedOut (t : ℚ) (mb : Command) : SendResult
  | stillPolling (mb : Command) : SendResult
  deriving DecidableEq, Repr

/-- The busy-wait loop of `send_command` (lines 169-173): each iteration
first lets the listener's store (if any) land, then checks `empty()`;
when non-empty it exits the loop and returns `pop()`; when empty it
reads the clock and raises if the timeout is exceeded. -/
def sendWait (timeout st : ℚ) (mb : Command) : List PollEvent → SendResult × ℕ
  | [] => (SendResult.stillPolling mb, 0)
  | (t, d) :: rest =>
    if (applyStore mb d).empty then
      if timeout ≤ t - st then (SendResult.timedOut t (applyStore mb d), 1)
      else ((sendWait timeout st (applyStore mb d) rest).1,
            (sendWait timeout st (applyStore mb d) rest).2 + 1)
    else (SendResult.replied ((applyStore mb d).pop).1 ((applyStore mb d).pop).2, 1)

/-- `Tello.send_command` (lines 149-173): transmit the command datagram
(`socket.sendto`), then either return `None` immediately (`with_return`
false) or run the busy-wait loop with `st` the clock value at
transmission.  Result: the transmitted datagrams, the outcome, and the
number of polls of the mailbox performed. -/
def send_command (command : String) (with_return : Bool) (timeout st : ℚ)
    (mb : Command) (events : List PollEvent) : List String × SendResult × ℕ :=
  if with_return then
    ([command], (sendWait timeout st mb events).1, (sendWait timeout st mb events).2)
  else ([command], SendResult.noReply, 0)

/-- First clock value in the schedule at least `timeout` past `st`: the
moment the wait loop raises when the listener never stores. -/
def pollTimes (timeout st : ℚ) : List ℚ → Option ℚ
  | [] => none
  | t :: ts => if timeout ≤ t - st then some t else pollTimes timeout st ts

/-! ### Observer bus (`Subject`, TelloFramework.py lines 6-17) -/

/-- Observer handles are opaque tokens. -/
abbrev ObserverId := ℕ

/-- Embedding of `Subject`: `self.observers` is a Python dict from key
to list of observer handles, as an ordered association list. -/
structure Subject where
  observers : List (String × List ObserverId)
  deriving DecidableEq, Repr

/-- A freshly constructed `Subject()`: `self.observers = {}`. -/
def Subject.init : Subject := ⟨[]⟩

/-- Python `dict[key]` lookup on the observers dict (`none` = the key is
absent, so subscripting raises `KeyError`). -/
def lookupKey (l : List (String × List ObserverId)) (key : String) :
    Option (List ObserverId) :=
  match l with
  | [] => none
  | (k, v) :: rest => if k = key then some v else lookupKey rest key

/-- Python `dict[key] = v`: overwrite in place when the key is present,
append otherwise. -/
def setKey (l : List (String × List ObserverId)) (key : String)
    (v : List ObserverId) : List (String × List ObserverId) :=
  match l with
  | [] => [(key, v)]
  | (k, w) :: rest => if k = key then (k, v) :: rest else (k, w) :: setKey rest key v

/-- `Subject.register_observer` (lines 10-13): create the key's empty
list if the key is absent, then append the observer. -/
def Subject.register_observer (s : Subject) (key : String) (o : ObserverId) : Subject :=
  match lookupKey s.observers key with
  | some os => ⟨setKey s.observers key (os ++ [o])⟩
  | none => ⟨setKey s.observers key [o]⟩

/-- `Subject.notify_observes` (lines 15-17): `for obsever in
self.observers[key]: Thread(target=obsever.notify, ...).start()`.
`.error` models the `KeyError` raised by `self.observers[key]` when the
key was never registered; otherwise one notification thread is spawned
per registered observer, in list order, each delivering
`observer.notify(key, value)` — the returned list records these
dispatches. -/
def Subject.notify_observes {α : Type} (s : Subject) (key : String) (value : α) :
    Except String (List (ObserverId × String × α)) :=
  match lookupKey s.observers key with
  | none => Except.error "KeyError"
  | some os => Except.ok (os.map fun o => (o, key, value))

/-! ### Frame pump (`TelloFramework._send_video_frame`, lines 36-40) -/

/-- The frame-pump loop: `id` starts at `-1` and is incremented before
each publish; each frame delivered by `read_frame()` is published
through `notify_observes` under key `"frame"` as the pair `(id, frame)`.
The model runs the loop over the list of frames `read_frame()` delivers
(frames overwritten inside `Video` before being read never reach the
pump) and returns the list of publish calls made, in order. -/
def sendVideoFrameLoop {α : Type} (i : ℤ) : List α → List (String × ℤ × α)
  | [] => []
  | f :: fs => ("frame", i + 1, f) :: sendVideoFrameLoop (i + 1) fs

/-! ### Video mailbox and session construction (TelloAPI.py lines 93-147) -/

/-- Frames are opaque decoded images; the model uses an abstract token. -/
abbrev Frame := ℕ

/-- Embedding of `Video` (lines 93-121): the single-slot frame mailbox
fed by the capture update thread. -/
structure VideoMb where
  frame : Option Frame
  deriving DecidableEq, Repr

/-- `Video.__init__` (lines 94-102): raise
`RuntimeError('Failed to connect to Tello')` when the external capture
collaborator fails to open the UDP stream (`isOpened()` false),
otherwise start with an empty slot (and start the update thread). -/
def Video.init (isOpened : Bool) : Except String VideoMb :=
  if isOpened then Except.ok ⟨none⟩
  else Except.error "Failed to connect to Tello"

/-- The part of the `Tello` session state the claims need: the
telemetry client and the video client, each present only when the
corresponding listener was started (`None` otherwise). -/
structure TelloState where
  state_client : Option TelemetryHeap
  video_client : Option VideoMb
  deriving DecidableEq, Repr

/-- `Tello.state` (lines 175-176): `self.state_client.pop() if
self.state_client else None` — a total expression that returns `None`
when the telemetry listener was never started.  The `Except` result
makes the absence of a raise explicit: this method always returns
`.ok`. -/
def Tello.state (t : TelloState) : Except String (Option Telemetry) :=
  match t.state_client with
  | none => Except.ok none
  | some h => Except.ok (some h.current)

/-- Outcome of `Tello.read_frame` (lines 178-183): `raised` = the call
raised; `polling` = the busy-wait continues (slot still empty); `got` =
a frame was popped, leaving the slot empty. -/
inductive ReadFrameOutcome where
  | raised (msg : String) : ReadFrameOutcome
  | polling : ReadFrameOutcome
  | got (f : Frame) (t : TelloState) : ReadFrameOutcome
  deriving DecidableEq, Repr

/-- `Tello.read_frame` (lines 178-183): raise
`RuntimeError('Video is not available')` when the video collaborator was
never started; otherwise busy-wait until the frame slot is non-empty and
pop it. -/
def Tello.read_frame (t : TelloState) : ReadFrameOutcome :=
  match t.video_client with
  | none => ReadFrameOutcome.raised "Video is not available"
  | some v =>
    match v.frame with
    | none => ReadFrameOutcome.polling
    | some f => ReadFrameOutcome.got f ⟨t.state_client, some ⟨none⟩⟩

/-- Result of running `Tello.__init__` (lines 125-147): the listener
threads started, in start order — the constructor never stops or joins
any of them, also not on its failure paths — and either the constructed
session state or the raised error. -/
structure InitResult where
  startedThreads : List String
  outcome : Except String TelloState
  deriving Repr

/-- `Tello.__init__` (lines 125-147): start the command-ack listener,
start the telemetry listener when `state` is true, then
`enter_command_mode()` (the reply must be the literal `'ok'`, lines
185-187), then when `video` is true `open_video_stream()` (the reply
must be `'ok'`, lines 201-203) and construct `Video` (which starts the
frame update thread).  The environment is abstracted by the device's
reply to the `'command'` handshake and to `'streamon'` (`none` = no
reply before the timeout, so `send_command` raises
`RuntimeError('No response to command')`), and by whether the capture
collaborator opens. -/
def Tello.init (state video : Bool) (replyToCommand replyToStreamon : Option String)
    (captureOpened : Bool) : InitResult :=
  let started := "command-ack" :: (if state then ["telemetry"] else [])
  match replyToCommand with
  | none => ⟨started, Except.error "No response to command"⟩
  | some r =>
    if r ≠ "ok" then
      ⟨started, Except.error "Tello rejected the attempt to enter command mode"⟩
    else
      let sc : Option TelemetryHeap := if state then some TelemetryHeap.init else none
      if video then
        match replyToStreamon with
        | none => ⟨started, Except.error "No response to command"⟩
        | some r2 =>
          if r2 ≠ "ok" then
            ⟨started, Except.error "Tello rejected to open the video stream"⟩
          else
            match Video.init captureOpened with
            | Except.error e => ⟨started, Except.error e⟩
            | Except.ok v => ⟨started ++ ["video-update"], Except.ok ⟨sc, some v⟩⟩
      else ⟨started, Except.ok ⟨sc, none⟩⟩

/-! ### Theorems -/

theorem Command.recvAll_append_last (c : Command) (ds : List String) (d : String) :
    Command.recvAll c (ds ++ [d]) = { response := some d } := by
  simp [Command.recvAll, List.foldl_append, Command.recv]

/-- C1: for every sequence of store (`recv`) calls on the command-ack
mailbox, `pop` returns the most recently stored value and leaves the
mailbox empty; and `pop` on an empty mailbox returns `none` and leaves it
empty. -/
theorem c1_mailbox_take_semantics (c : Command) (ds : List String) (d : String)
    (c2 : Command) (h : c2.empty = true) :
    ((Command.recvAll c (ds ++ [d])).pop = (some d, Command.init) ∧
      (Command.recvAll c (ds ++ [d])).pop.2.empty = true) ∧
    (c2.pop = (none, c2) ∧ c2.pop.2.empty = true) := by
  have hresp : c2.response = none := by
    simpa [Command.empty, Option.isNone_iff_eq_none] using h
  refine ⟨⟨?_, ?_⟩, ?_, ?_⟩
  · rw [Command.recvAll_append_last]
    rfl
  · rw [Command.recvAll_append_last]
    rfl
  · cases c2
    simp_all [Command.pop]
  · rfl

/-- Witness for C1 at a concrete input: stores "first" then "last"; take
returns "last" and empties the slot, and take on the empty mailbox
returns nothing. -/
theorem c1_mailbox_take_semantics_witness :
    ((Command.recvAll Command.init (["first"] ++ ["last"])).pop
        = (some "last", Command.init) ∧
      (Command.recvAll Command.init (["first"] ++ ["last"])).pop.2.empty = true) ∧
    (Command.init.pop = (none, Command.init) ∧ Command.init.pop.2.empty = true) :=
  c1_mailbox_take_semantics Command.init ["first"] "last" Command.init rfl

theorem decodeToken_no_colon (item : List Char) (h : item.contains ':' = false) :
    decodeToken item = some none := by
  unfold decodeToken
  rw [if_neg (by simpa using h)]

theorem decodeToken_parse_ok (item : List Char) (v : ℚ)
    (h : item.contains ':' = true)
    (hp : parseFloat ((splitOnChar ':' item).getD 1 []) = some v) :
    decodeToken item
      = some (some (String.mk ((splitOnChar ':' item).getD 0 []), v)) := by
  unfold decodeToken
  rw [if_pos h, hp]

theorem decodeToken_parse_fail (item : List Char)
    (h : item.contains ':' = true)
    (hp : parseFloat ((splitOnChar ':' item).getD 1 []) = none) :
    decodeToken item = none := by
  unfold decodeToken
  rw [if_pos h, hp]

theorem decodeTokens_eq_spec (items : List (List Char)) : ∀ d : Telemetry,
    decodeTokens d items =
      (specTokens items).map
        (fun kvs => kvs.foldl (fun d2 kv => dictInsert d2 kv.1 kv.2) d) := by
  induction items with
  | nil => intro d; rfl
  | cons item rest ih =>
    intro d
    simp only [decodeTokens, specTokens, specValueField, specKeyField]
    by_cases hc : item.contains ':'
    · rw [if_pos hc]
      cases hp : parseFloat ((splitOnChar ':' item).getD 1 []) with
      | none =>
        rw [decodeToken_parse_fail item hc hp]
        rfl
      | some v =>
        rw [decodeToken_parse_ok item v hc hp]
        show decodeTokens (dictInsert d (String.mk ((splitOnChar ':' item).getD 0 [])) v) rest = _
        rw [ih (dictInsert d (String.mk ((splitOnChar ':' item).getD 0 [])) v)]
        cases hs : specTokens rest <;> simp [hs, List.foldl_cons]
    · rw [if_neg hc]
      rw [decodeToken_no_colon item (by simpa using hc)]
      exact ih d

/-- C2 counterexample: the decode is NOT "split each token on the first
`':'` and parse the value part as a float".  On the datagram `"a:1:2"`
the value part after the first colon is `"1:2"`, which does not parse as
a float, yet the code neither raises nor drops the token: it produces
the snapshot `{a: 1.0}` (from `item.split(':')[1]`, the text between the
first and second colon). -/
theorem c2_counterexample_decode_not_split_first :
    decodeTelemetry "a:1:2" = some [("a", 1)] ∧
    afterFirstColon "a:1:2".toList = "1:2".toList ∧
    parseFloat (afterFirstColon "a:1:2".toList) = none ∧
    decodeTelemetry "a:1:2" ≠ some [] ∧
    decodeTelemetry "a:1:2" ≠ none := by
  refine ⟨rfl, rfl, rfl, ?_, ?_⟩ <;>
    simp [show decodeTelemetry "a:1:2" = some [("a", 1)] from rfl]

/-- C2 (amended): for every inbound telemetry datagram, the decoded
snapshot is obtained by splitting the UTF-8 text on `';'`, splitting
each token on `':'` and taking the first two fields as the key and value
parts, keeping only tokens that contain `':'`, and parsing the value
field as a floating-point number; in particular the input
`"pitch:1.0;roll:-2.5;badtoken;yaw:3"` yields exactly the mapping
`{pitch: 1.0, roll: -2.5, yaw: 3.0}`, with the colon-free token dropped
without error. -/
theorem c2_decode_refines_spec :
    (∀ data : String, decodeTelemetry data = decodeTelemetrySpec data) ∧
    decodeTelemetry "pitch:1.0;roll:-2.5;badtoken;yaw:3"
      = some [("pitch", 1), ("roll", -(5/2)), ("yaw", 3)] := by
  constructor
  · intro data
    rw [decodeTelemetry, decodeTelemetrySpec, decodeTokens_eq_spec]
  · have h : decodeTelemetry "pitch:1.0;roll:-2.5;badtoken;yaw:3"
        = some [("pitch", (1:ℚ) + (0:ℚ) / (10:ℚ) ^ (1:ℕ)),
                ("roll", -((2:ℚ) + (5:ℚ) / (10:ℚ) ^ (1:ℕ))),
                ("yaw", 3)] := rfl
    rw [h]
    norm_num

/-- C10: the telemetry decode is partial: the datagram `"x:abc"` has a
`':'` separator but a value segment that `float` cannot parse, so
`State.recv` raises instead of dropping the token, and the receive loop
that called it terminates silently (it catches the exception, breaks,
and processes no further datagrams; the snapshot binding is left
unchanged and no error propagates). -/
theorem c10_decode_partial_kills_listener (h : TelemetryHeap) (ds : List String) :
    decodeTelemetry "x:abc" = none ∧
    receiveLoop h ("x:abc" :: ds) = (h, true) := by
  refine ⟨rfl, ?_⟩
  simp [receiveLoop, TelemetryHeap.recvStep,
    show decodeTelemetry "x:abc" = none from rfl]

theorem receiveLoop_deref (ds : List String) : ∀ (h : TelemetryHeap) (r : ℕ) (m : Telemetry),
    h.deref r = some m → (receiveLoop h ds).1.deref r = some m := by
  induction ds with
  | nil => intro h r m hm; exact hm
  | cons d ds ih =>
    intro h r m hm
    have hm2 : h.heap[r]? = some m := hm
    cases hd : decodeTelemetry d with
    | none =>
      have hstep : h.recvStep d = none := by simp [TelemetryHeap.recvStep, hd]
      simpa [receiveLoop, hstep] using hm
    | some m2 =>
      have hstep : h.recvStep d = some ⟨h.heap ++ [m2], h.heap.length⟩ := by
        simp [TelemetryHeap.recvStep, hd]
      have h2m : (TelemetryHeap.mk (h.heap ++ [m2]) h.heap.length).deref r = some m := by
        have hr : r < h.heap.length := by
          by_contra hge
          simp [List.getElem?_eq_none (le_of_not_lt hge)] at hm2
        show (h.heap ++ [m2])[r]? = some m
        rw [List.getElem?_append_left hr]
        exact hm2
      simp only [receiveLoop, hstep]
      exact ih _ r m h2m

/-- C9: a telemetry snapshot handed to a caller by `State.pop` is never
mutated afterwards: every inbound datagram builds a brand-new mapping
and rebinds the slot wholesale, so the dict object behind a previously
returned reference keeps exactly the key-value pairs it had, for any
number of subsequent datagrams fed to the receive loop. -/
theorem c9_snapshot_immutable (h : TelemetryHeap) (ds : List String) (m : Telemetry)
    (hm : h.deref h.pop = some m) :
    (receiveLoop h ds).1.deref h.pop = some m :=
  receiveLoop_deref ds h h.pop m hm

/-- Witness for C9 at a concrete input: the snapshot `{pitch: 1.0}`
returned before the datagram `"pitch:2"` arrives still reads
`{pitch: 1.0}` afterwards. -/
theorem c9_snapshot_immutable_witness :
    (receiveLoop ⟨[[("pitch", 1)]], 0⟩ ["pitch:2"]).1.deref
        (TelemetryHeap.pop ⟨[[("pitch", 1)]], 0⟩) = some [("pitch", 1)] :=
  c9_snapshot_immutable ⟨[[("pitch", 1)]], 0⟩ ["pitch:2"] [("pitch", 1)] rfl

theorem sendWait_noStore (timeout st : ℚ) : ∀ times : List ℚ,
    (sendWait timeout st Command.init (times.map fun t => (t, none))).1 =
      (match pollTimes timeout st times with
       | some tf => SendResult.timedOut tf Command.init
       | none => SendResult.stillPolling Command.init) := by
  intro times
  induction times with
  | nil => rfl
  | cons t ts ih =>
    simp only [List.map_cons, sendWait, applyStore, pollTimes]
    by_cases h : timeout ≤ t - st <;>
      simp [h, show Command.init.empty = true from rfl, ih]

theorem pollTimes_isSome_of_trigger (timeout st : ℚ) : ∀ times : List ℚ,
    (∃ t ∈ times, timeout ≤ t - st) → ∃ tf, pollTimes timeout st times = some tf := by
  intro times
  induction times with
  | nil => rintro ⟨t, ht, -⟩; cases ht
  | cons t ts ih =>
    rintro ⟨u, hu, hule⟩
    by_cases h : timeout ≤ t - st
    · exact ⟨t, by simp [pollTimes, h]⟩
    · have hu2 : u ∈ ts := by
        rcases List.mem_cons.mp hu with rfl | h2
        · exact absurd hule h
        · exact h2
      obtain ⟨tf, htf⟩ := ih ⟨u, hu2, hule⟩
      exact ⟨tf, by simp [pollTimes, h, htf]⟩

theorem pollTimes_lower (timeout st : ℚ) : ∀ (times : List ℚ) (tf : ℚ),
    pollTimes timeout st times = some tf → st + timeout ≤ tf := by
  intro times
  induction times with
  | nil => intro tf h; cases h
  | cons t ts ih =>
    intro tf h
    by_cases hle : timeout ≤ t - st
    · simp [pollTimes, hle] at h
      subst h
      linarith
    · simp [pollTimes, hle] at h
      exact ih tf h

theorem pollTimes_upper (timeout st dlt : ℚ) : ∀ (times : List ℚ) (tprev tf : ℚ),
    tprev < st + timeout →
    (∀ t0, times.head? = some t0 → tprev ≤ t0 ∧ t0 - tprev ≤ dlt) →
    List.Chain' (fun a b => a ≤ b ∧ b - a ≤ dlt) times →
    pollTimes timeout st times = some tf →
    tf ≤ st + timeout + dlt := by
  intro times
  induction times with
  | nil => intro tprev tf h1 h2 h3 h; cases h
  | cons t ts ih =>
    intro tprev tf hprev hhead hchain h
    obtain ⟨hle1, hle2⟩ := hhead t rfl
    by_cases hle : timeout ≤ t - st
    · simp [pollTimes, hle] at h
      subst h
      linarith
    · simp [pollTimes, hle] at h
      push_neg at hle
      have hparts := List.chain'_cons'.mp hchain
      have hhead2 : ∀ t0, ts.head? = some t0 → t ≤ t0 ∧ t0 - t ≤ dlt :=
        fun t0 h0 => hparts.1 t0 (Option.mem_def.mpr h0)
      exact ih t tf (by linarith) hhead2 hparts.2 h

/-- C4: a `send_command` with `with_return = true` during which the
command-ack mailbox never receives a store transmits the datagram and
fails with `CommandTimeout` (`RuntimeError('No response to command')`);
on a poll schedule that starts within `dlt` of transmission, has
consecutive polls at most `dlt` apart, and eventually passes the
deadline, the failure clock value `tf` satisfies
`st + timeout ≤ tf ≤ st + timeout + dlt`, and the mailbox afterwards is
empty — it holds no record of the timed-out attempt. -/
theorem c4_send_timeout_bounds (command : String) (timeout st dlt : ℚ)
    (times : List ℚ) (htpos : 0 < timeout)
    (hfirst : ∀ t0, times.head? = some t0 → st ≤ t0 ∧ t0 - st ≤ dlt)
    (hchain : List.Chain' (fun a b => a ≤ b ∧ b - a ≤ dlt) times)
    (htrig : ∃ t ∈ times, timeout ≤ t - st) :
    ∃ tf,
      (send_command command true timeout st Command.init
          (times.map fun t => (t, none))).1 = [command] ∧
      (send_command command true timeout st Command.init
          (times.map fun t => (t, none))).2.1 = SendResult.timedOut tf Command.init ∧
      st + timeout ≤ tf ∧ tf ≤ st + timeout + dlt := by
  obtain ⟨tf, htf⟩ := pollTimes_isSome_of_trigger timeout st times htrig
  refine ⟨tf, by simp [send_command], ?_, pollTimes_lower timeout st times tf htf, ?_⟩
  · show (sendWait timeout st Command.init (times.map fun t => (t, none))).1 = _
    rw [sendWait_noStore timeout st times, htf]
  · exact pollTimes_upper timeout st dlt times st tf (by linarith) hfirst hchain htf

/-- Witness for C4 at a concrete input: timeout 1 starting at clock 0,
polls at clock 0 and 1, slack bound 1: the raise happens at clock 1. -/
theorem c4_send_timeout_bounds_witness :
    ∃ tf,
      (send_command "battery?" true 1 0 Command.init
          (([0, 1] : List ℚ).map fun t => (t, none))).1 = ["battery?"] ∧
      (send_command "battery?" true 1 0 Command.init
          (([0, 1] : List ℚ).map fun t => (t, none))).2.1
        = SendResult.timedOut tf Command.init ∧
      (0 : ℚ) + 1 ≤ tf ∧ tf ≤ 0 + 1 + 1 :=
  c4_send_timeout_bounds "battery?" 1 0 1 [0, 1] (by norm_num)
    (by intro t0 h0; simp at h0; subst h0; norm_num)
    (by norm_num [List.chain'_cons, List.chain'_singleton])
    ⟨1, by simp, by norm_num⟩

/-- C8: for every command string, `send_command` with `with_return =
false` transmits the datagram, returns immediately with no result and
zero polls of the reply mailbox — whatever the mailbox holds and
whatever the schedule — and its outcome is `noReply`, never the
`CommandTimeout` raise. -/
theorem c8_fire_and_forget_never_times_out (command : String) (timeout st : ℚ)
    (mb : Command) (events : List PollEvent) :
    send_command command false timeout st mb events
      = ([command], SendResult.noReply, 0) := by
  simp [send_command]

theorem sendVideoFrameLoop_keys {α : Type} (i : ℤ) (fs : List α) :
    (sendVideoFrameLoop i fs).map Prod.fst = List.replicate fs.length "frame" := by
  induction fs generalizing i with
  | nil => rfl
  | cons f fs ih => simp [sendVideoFrameLoop, ih, List.replicate_succ]

theorem sendVideoFrameLoop_frames {α : Type} (i : ℤ) (fs : List α) :
    (sendVideoFrameLoop i fs).map (fun p => p.2.2) = fs := by
  induction fs generalizing i with
  | nil => rfl
  | cons f fs ih => simp [sendVideoFrameLoop, ih]

theorem sendVideoFrameLoop_ids {α : Type} (i : ℤ) (fs : List α) :
    (sendVideoFrameLoop i fs).map (fun p => p.2.1)
      = (List.range fs.length).map (fun k : ℕ => i + 1 + (k : ℤ)) := by
  induction fs generalizing i with
  | nil => rfl
  | cons f fs ih =>
    simp only [sendVideoFrameLoop, List.map_cons, List.length_cons,
      List.range_succ_eq_map, List.map_map, ih]
    congr 1
    · push_cast
      ring
    · apply List.map_congr_left
      intro k _
      simp only [Function.comp_apply]
      push_cast
      ring

/-- C5: for every sequence of frames delivered by `read_frame()`, the
frame pump publishes each read frame under key `"frame"` with a sequence
id that starts at 0 and increases by exactly 1 per publish — the ids are
`0, 1, ..., n-1` for `n` delivered frames, independent of how many
frames were dropped by overwrite before being read; in particular when
the reads yield `f0` then `f2` (the frame in between overwritten before
being read), exactly two notifications are published, with ids 0 and 1
carrying `f0` and `f2`. -/
theorem c5_frame_pump_sequence_ids (fs : List ℕ) (f0 f2 : ℕ) :
    ((sendVideoFrameLoop (-1) fs).map Prod.fst = List.replicate fs.length "frame" ∧
      (sendVideoFrameLoop (-1) fs).map (fun p => p.2.1)
        = (List.range fs.length).map (fun k : ℕ => (k : ℤ)) ∧
      (sendVideoFrameLoop (-1) fs).map (fun p => p.2.2) = fs) ∧
    sendVideoFrameLoop (-1) [f0, f2] = [("frame", 0, f0), ("frame", 1, f2)] := by
  refine ⟨⟨sendVideoFrameLoop_keys (-1) fs, ?_, sendVideoFrameLoop_frames (-1) fs⟩, rfl⟩
  rw [sendVideoFrameLoop_ids (-1) fs]
  apply List.map_congr_left
  intro k _
  ring

/-- C6 counterexample: `publish` to a key with zero registered observers
is NOT a no-op: on a fresh bus (no `register` ever called), publishing
under `"frame"` raises `KeyError` from `self.observers[key]` instead of
completing without error. -/
theorem c6_counterexample_publish_unregistered_raises :
    Subject.init.notify_observes "frame" (0 : ℕ) = Except.error "KeyError" := rfl

/-- C6 (amended): for every key with zero registered observers (one for
which `register` was never called), `publish(key, value)` raises a
`KeyError` rather than completing as a no-op. -/
theorem c6_publish_unregistered_key_raises {α : Type} (s : Subject) (key : String)
    (v : α) (h : lookupKey s.observers key = none) :
    s.notify_observes key v = Except.error "KeyError" := by
  simp [Subject.notify_observes, h]

/-- Witness for C6 (amended) at a concrete input: a fresh bus and the
key `"frames"`. -/
theorem c6_publish_unregistered_key_raises_witness :
    Subject.init.notify_observes "frames" (7 : ℕ) = Except.error "KeyError" :=
  c6_publish_unregistered_key_raises Subject.init "frames" 7 rfl

/-- C3 counterexample: when the device replies `"error"` to the
mode-entry command, construction does fail with the raised error, but
background listener threads ARE left running: the command-ack and
telemetry listeners were started before the handshake and the failure
path stops neither. -/
theorem c3_counterexample_listeners_left_running :
    (Tello.init true true (some "error") none false).outcome
      = Except.error "Tello rejected the attempt to enter command mode" ∧
    (Tello.init true true (some "error") none false).startedThreads
      = ["command-ack", "telemetry"] ∧
    (Tello.init true true (some "error") none false).startedThreads ≠ [] := by
  have h2 : (Tello.init true true (some "error") none false).startedThreads
      = ["command-ack", "telemetry"] := rfl
  exact ⟨rfl, h2, by rw [h2]; simp⟩

/-- C3 (amended): if during session construction the device's reply to
the mode-entry command `"command"` is anything other than the literal
`"ok"` (including no reply at all), construction fails with a raised
error, and the already-started command-ack listener (plus the telemetry
listener when enabled) is left running — the failure path stops no
thread; no video thread is started. -/
theorem c3_handshake_reject_aborts_but_listeners_run (state video : Bool)
    (reply replyS : Option String) (cap : Bool)
    (h : ∀ r, reply = some r → r ≠ "ok") :
    (∃ msg, (Tello.init state video reply replyS cap).outcome = Except.error msg) ∧
    (Tello.init state video reply replyS cap).startedThreads
      = "command-ack" :: (if state then ["telemetry"] else []) := by
  cases reply with
  | none => exact ⟨⟨"No response to command", rfl⟩, rfl⟩
  | some r =>
    have hr : r ≠ "ok" := h r rfl
    refine ⟨⟨"Tello rejected the attempt to enter command mode", ?_⟩, ?_⟩ <;>
      simp [Tello.init, hr]

/-- Witness for C3 (amended) at a concrete input: reply `"error"` with
both listeners enabled. -/
theorem c3_handshake_reject_aborts_but_listeners_run_witness :
    (∃ msg, (Tello.init true true (some "error") none false).outcome
        = Except.error msg) ∧
    (Tello.init true true (some "error") none false).startedThreads
      = "command-ack" :: (if true then ["telemetry"] else []) :=
  c3_handshake_reject_aborts_but_listeners_run true true (some "error") none false
    (by intro r hr; simp at hr; subst hr; decide)

/-- C7 counterexample: a telemetry read attempted when the telemetry
listener was never started does NOT raise: `Tello.state` returns the
normal value `None` (`.ok none`), not an error. -/
theorem c7_counterexample_state_no_raise :
    Tello.state ⟨none, none⟩ = Except.ok none := rfl

/-- C7 (amended): a frame read attempted when the video collaborator was
never started raises `RuntimeError('Video is not available')`, and a
video-collaborator open failure at construction raises
`RuntimeError('Failed to connect to Tello')`; but a telemetry read
attempted when the telemetry listener was never started returns `None`
without raising. -/
theorem c7_transport_unavailable_raises (sc : Option TelemetryHeap)
    (vc : Option VideoMb) :
    Tello.read_frame ⟨sc, none⟩ = ReadFrameOutcome.raised "Video is not available" ∧
    Video.init false = Except.error "Failed to connect to Tello" ∧
    Tello.state ⟨none, vc⟩ = Except.ok none :=
  ⟨rfl, rfl, rfl⟩

end DeepDrone
